import Mathlib

/-!
Verification development for the z3y C++ plugin framework.

The definitions below are a shallow embedding of the framework's core:
the compile-time FNV-1a identity hash (framework/class_id.h), the
versioned interface query generated by the CRTP helper
(framework/plugin_impl.h), the registry and resolver of the plugin
manager (src/z3y_plugin_manager/plugin_manager.h / .cpp) and the event
bus (src/z3y_plugin_manager/event_bus_impl.cpp, framework/i_event_bus.h).

Machine integers (uint64_t) are modelled as Nat with explicit reduction
modulo 2 ^ 64 where C++ overflow can occur; C++ maps (unordered_map)
are modelled as functions into Option; thrown exceptions are modelled
as explicit error results.
-/

namespace Z3y

/-! ## Identity model: framework/class_id.h -/

/-- 2 ^ 64, the modulus of C++ uint64_t arithmetic. -/
def UInt64Mod : Nat := 2 ^ 64

/-- FNV-1a 64-bit offset basis (class_id.h, kFnvOffsetBasis). -/
def kFnvOffsetBasis : Nat := 0xcbf29ce484222325

/-- FNV-1a 64-bit prime (class_id.h, kFnvPrime). -/
def kFnvPrime : Nat := 0x100000001b3

/-- Embedding of z3y::internal::Fnv1aHashRt from class_id.h.  The C
string is modelled as the list of its byte values before the
terminating NUL; the recursion consumes one byte per step exactly as
the source's ternary recursion does. -/
def Fnv1aHashRt : List Nat → Nat → Nat
  | [], hash => hash
  | c :: rest, hash => Fnv1aHashRt rest (((hash ^^^ c) * kFnvPrime) % UInt64Mod)

/-- Embedding of z3y::ConstexprHash from class_id.h: a null or empty
string hashes to 0 (the source's invalid-id sentinel), any other
string is hashed by Fnv1aHashRt starting from the offset basis. -/
def ConstexprHash (str : List Nat) : Nat :=
  if str = [] then 0 else Fnv1aHashRt str kFnvOffsetBasis

/-- Byte values (before the terminating NUL) of a Lean string literal,
used to apply ConstexprHash to the repository's UUID literals.  The
repository's literals are ASCII, where the byte values coincide with
the code points. -/
def strBytes (s : String) : List Nat :=
  s.data.map (fun c => c.toNat)

/-- The FNV-1a-64 fold exactly as the specification words it: start
from the offset basis and, for each byte, XOR the byte into the
accumulator and multiply by the prime modulo 2 ^ 64.  This definition
follows the spec's words and is compared against ConstexprHash, which
is translated from the source. -/
def fnv1aSpecFold (bytes : List Nat) : Nat :=
  bytes.foldl (fun h b => ((h ^^^ b) * kFnvPrime) % UInt64Mod) kFnvOffsetBasis

/-! ## Interface identity and versions: i_plugin_query.h, interface_helpers.h -/

/-- Embedding of z3y::InterfaceVersion (i_plugin_query.h). -/
structure InterfaceVersion where
  major : Nat
  minor : Nat
  deriving DecidableEq

/-- Embedding of z3y::InterfaceDetails (i_plugin_query.h): interface
id, human-readable name, and implemented version. -/
structure InterfaceDetails where
  iid : Nat
  name : String
  version : InterfaceVersion
  deriving DecidableEq

/-- Modelled from the spec: the root component interface IComponent
carries a stable interface id like every other interface.  The
revision of i_component.h that defines IComponent's kIid with
Z3Y_DEFINE_INTERFACE is not in the tree (the checked-in i_component.h
is an older iteration without it); the spec only requires a fixed
64-bit id, so a fixed UUID-literal hash is used. -/
def kIComponentIid : Nat := ConstexprHash (strBytes "z3y-core-IComponent-IID-A0000001")

/-- Modelled from the spec: IComponent's interface major version (the
checked-in i_component.h predates the versioned interface macro). -/
def kIComponentVersionMajor : Nat := 1

/-- Modelled from the spec: IComponent's interface minor version. -/
def kIComponentVersionMinor : Nat := 0

/-- The InterfaceDetails entry that PluginImpl::GetInterfaceDetails
always pushes first, describing the root IComponent interface
(plugin_impl.h, GetInterfaceDetails). -/
def iComponentEntry : InterfaceDetails :=
  ⟨kIComponentIid, "IComponent", ⟨kIComponentVersionMajor, kIComponentVersionMinor⟩⟩

/-! ## Error codes: framework/plugin_exceptions.h -/

/-- Embedding of z3y::InstanceError (plugin_exceptions.h). -/
inductive InstanceError where
  | kSuccess
  | kErrorAliasNotFound
  | kErrorClsidNotFound
  | kErrorNotAService
  | kErrorNotAComponent
  | kErrorFactoryFailed
  | kErrorInterfaceNotImpl
  | kErrorVersionMajorMismatch
  | kErrorVersionMinorTooLow
  | kErrorInternal
  deriving DecidableEq

/-! ## Versioned query: framework/plugin_impl.h -/

/-- Embedding of PluginImpl::QueryRecursive (plugin_impl.h).  The
compile-time template pack Interfaces... is modelled as the list of
its InterfaceDetails; the returned raw pointer is modelled as the
matched InterfaceDetails entry (the interface sub-object it points
to), none standing for nullptr.  Version logic as in the source: on an
iid match, a differing major version is kErrorVersionMajorMismatch, an
implemented minor version below the requested one is
kErrorVersionMinorTooLow, otherwise success. -/
def QueryRecursive (ifaces : List InterfaceDetails) (iid hostMajor hostMinor : Nat) :
    Option InterfaceDetails × InstanceError :=
  match ifaces with
  | [] => (none, .kErrorInterfaceNotImpl)
  | first :: rest =>
    if iid = first.iid then
      if first.version.major ≠ hostMajor then
        (none, .kErrorVersionMajorMismatch)
      else if first.version.minor < hostMinor then
        (none, .kErrorVersionMinorTooLow)
      else
        (some first, .kSuccess)
    else
      QueryRecursive rest iid hostMajor hostMinor

/-- Embedding of PluginImpl::QueryInterfaceRaw (plugin_impl.h): the
root IComponent interface is checked first with its own version
constants, then the interface pack is walked by QueryRecursive; an
empty pack yields kErrorInterfaceNotImpl. -/
def QueryInterfaceRaw (interfaces : List InterfaceDetails) (iid major minor : Nat) :
    Option InterfaceDetails × InstanceError :=
  if iid = kIComponentIid then
    if kIComponentVersionMajor ≠ major then
      (none, .kErrorVersionMajorMismatch)
    else if kIComponentVersionMinor < minor then
      (none, .kErrorVersionMinorTooLow)
    else
      (some iComponentEntry, .kSuccess)
  else
    QueryRecursive interfaces iid major minor

/-- Embedding of PluginImpl::GetInterfaceDetails (plugin_impl.h): the
IComponent entry followed by one entry per interface of the pack. -/
def GetInterfaceDetails (interfaces : List InterfaceDetails) : List InterfaceDetails :=
  iComponentEntry :: interfaces

/-- The version a component declares for an interface id: the version
of the first entry for that id in GetInterfaceDetails, mirroring the
first-match order of QueryInterfaceRaw. -/
def declaredVersion (interfaces : List InterfaceDetails) (iid : Nat) :
    Option InterfaceVersion :=
  ((GetInterfaceDetails interfaces).find? (fun d => iid = d.iid)).map (fun d => d.version)

/-! ## Objects, handles, cast: plugin_cast.h, plugin_manager.h -/

/-- A live component instance created by a factory.  oid models the
instance's identity (the address of the concrete object);
interfaces is the CRTP pack of the implementation, feeding
QueryInterfaceRaw. -/
structure Obj where
  oid : Nat
  interfaces : List InterfaceDetails

/-- An owning handle produced by the aliasing constructor: it shares
the lifetime of obj while exposing the sub-object for view
(plugin_cast.h, PluginCastImpl step 3). -/
structure Handle where
  obj : Obj
  view : InterfaceDetails

/-- The compile-time data of a target interface type T in
PluginCast T / GetService T: its kIid, kVersionMajor and
kVersionMinor. -/
structure Target where
  iid : Nat
  major : Nat
  minor : Nat

/-- Modelled from the spec (section 4.3, Typed cast): the
error-reporting overload of PluginCast that plugin_manager.h invokes
as PluginCast T (base_obj, cast_result) is not under src (the
checked-in plugin_cast.h is the earlier iteration without the
out-parameter).  Per the spec: an empty source handle gives
kErrorInternal; otherwise the object's query decides, the error is
propagated verbatim, and on success the returned handle aliases the
source object while exposing the matched interface sub-object. -/
def PluginCast (t : Target) (obj : Option Obj) : Option Handle × InstanceError :=
  match obj with
  | none => (none, .kErrorInternal)
  | some o =>
    match QueryInterfaceRaw o.interfaces t.iid t.major t.minor with
    | (some p, e) => (some ⟨o, p⟩, e)
    | (none, e) => (none, e)

/-! ## Registry state: plugin_manager.h / plugin_manager.cpp -/

/-- Embedding of PluginManager::ComponentInfo (plugin_manager.h,
with the is_default_registration field the .cpp revision stores).  The
factory is modelled as a function of a freshness seed so that distinct
invocations can yield distinct instances; a C++ factory returning an
empty pointer is modelled by none. -/
structure ComponentInfo where
  factory : Nat → Option Obj
  is_singleton : Bool
  «alias» : String
  source_plugin_path : String
  implemented_interfaces : List InterfaceDetails
  is_default_registration : Bool

/-- A cached weak reference to a singleton instance
(PluginManager::singletons_, a map to std::weak_ptr).  Whether the
reference can still be locked is decided by an external aliveness
assignment over instance identities. -/
structure WeakRef where
  target : Obj

/-- The registry state of PluginManager: components_, singletons_,
alias_map_ and default_map_ as finite maps modelled by functions into
Option, plus the freshness counter feeding factories. -/
structure Registry where
  components : Nat → Option ComponentInfo
  singletons : Nat → Option WeakRef
  alias_map : String → Option Nat
  default_map : Nat → Option Nat
  current_loading_plugin_path : String
  freshCounter : Nat

/-- Pointwise update of a Nat-keyed map (insert for some, erase for
none). -/
def updN {α : Type} (m : Nat → Option α) (k : Nat) (v : Option α) : Nat → Option α :=
  fun k' => if k' = k then v else m k'

/-- Pointwise update of a String-keyed map. -/
def updS {α : Type} (m : String → Option α) (k : String) (v : Option α) :
    String → Option α :=
  fun k' => if k' = k then v else m k'

/-- Embedding of PluginManager::GetClsidFromAlias
(plugin_manager.cpp): the alias map's entry, or 0 when absent. -/
def GetClsidFromAlias (st : Registry) («alias» : String) : Nat :=
  (st.alias_map «alias»).getD 0

/-! ## Resolver: plugin_manager.h, CreateInstance / GetService -/

/-- The outcome of a successful resolution: the typed out-pointer
produced by PluginCast (an Option, since a C++ PluginPtr can be
empty), the registry state after the call, and whether the component's
factory was invoked during the call. -/
structure ResolveOk where
  out_ptr : Option Handle
  st : Registry
  factory_called : Bool

/-- Embedding of PluginManager::CreateInstance (by ClassId)
(plugin_manager.h): missing ClassId throws kErrorClsidNotFound, a
singleton descriptor throws kErrorNotAComponent, an empty factory
result throws kErrorFactoryFailed, a failed cast throws its error, and
otherwise the cast's out-pointer is returned.  A thrown
PluginException is modelled as an error result. -/
def CreateInstanceClsid (st : Registry) (t : Target) (clsid : Nat) :
    Except InstanceError ResolveOk :=
  match st.components clsid with
  | none => .error .kErrorClsidNotFound
  | some info =>
    if info.is_singleton then .error .kErrorNotAComponent
    else
      match info.factory st.freshCounter with
      | none => .error .kErrorFactoryFailed
      | some base_obj =>
        if (PluginCast t (some base_obj)).2 ≠ .kSuccess then
          .error (PluginCast t (some base_obj)).2
        else
          .ok ⟨(PluginCast t (some base_obj)).1,
            { st with freshCounter := st.freshCounter + 1 }, true⟩

/-- Embedding of PluginManager::CreateInstance (by alias)
(plugin_manager.h): a missing alias (GetClsidFromAlias returns 0)
throws kErrorAliasNotFound, otherwise the call delegates to the
ClassId overload. -/
def CreateInstanceAlias (st : Registry) (t : Target) («alias» : String) :
    Except InstanceError ResolveOk :=
  let clsid := GetClsidFromAlias st «alias»
  if clsid = 0 then .error .kErrorAliasNotFound
  else CreateInstanceClsid st t clsid

/-- The shared tail of GetService when no live cached singleton
exists (plugin_manager.h, GetService steps 4-7): call the factory,
cast, and on success store a weak reference to the new base object in
singletons_ before returning. -/
def getServiceCreate (st : Registry) (t : Target) (clsid : Nat) (info : ComponentInfo) :
    Except InstanceError ResolveOk :=
  match info.factory st.freshCounter with
  | none => .error .kErrorFactoryFailed
  | some base_obj =>
    if (PluginCast t (some base_obj)).2 ≠ .kSuccess then
      .error (PluginCast t (some base_obj)).2
    else
      .ok ⟨(PluginCast t (some base_obj)).1,
        { st with singletons := updN st.singletons clsid (some ⟨base_obj⟩),
                  freshCounter := st.freshCounter + 1 }, true⟩

/-- Embedding of PluginManager::GetService (by ClassId)
(plugin_manager.h): missing ClassId throws kErrorClsidNotFound, a
non-singleton descriptor throws kErrorNotAService; a cached weak
reference that still locks (its target is alive) is cast and returned
without touching the factory; otherwise a fresh instance is created
and cached.  alive tells which instance identities still have external
strong references at the moment lock() runs. -/
def GetServiceClsid (st : Registry) (alive : Nat → Bool) (t : Target) (clsid : Nat) :
    Except InstanceError ResolveOk :=
  match st.components clsid with
  | none => .error .kErrorClsidNotFound
  | some info =>
    if !info.is_singleton then .error .kErrorNotAService
    else
      match st.singletons clsid with
      | some w =>
        if alive w.target.oid then
          if (PluginCast t (some w.target)).2 ≠ .kSuccess then
            .error (PluginCast t (some w.target)).2
          else
            .ok ⟨(PluginCast t (some w.target)).1, st, false⟩
        else getServiceCreate st t clsid info
      | none => getServiceCreate st t clsid info

/-- Embedding of PluginManager::GetService (by alias)
(plugin_manager.h). -/
def GetServiceAlias (st : Registry) (alive : Nat → Bool) (t : Target) («alias» : String) :
    Except InstanceError ResolveOk :=
  let clsid := GetClsidFromAlias st «alias»
  if clsid = 0 then .error .kErrorAliasNotFound
  else GetServiceClsid st alive t clsid

/-! ## Registration and rollback: plugin_manager.cpp -/

/-- The two error kinds PluginManager::RegisterComponent throws (both
std::runtime_error in the source): a duplicate ClassId, or a
conflicting default registration. -/
inductive RegError where
  | duplicateClsid
  | defaultConflict
  deriving DecidableEq

/-- Embedding of the is_default loop of
PluginManager::RegisterComponent (plugin_manager.cpp): walk
implemented_interfaces in order, skipping the root IComponent entry; a
pre-existing default for an interface throws the conflict error — the
map as mutated so far is kept, mirroring the in-place mutation of
default_map_ that the source performs before the throw; otherwise the
clsid is recorded as that interface's default. -/
def registerDefaultsLoop (clsid : Nat) :
    (Nat → Option Nat) → List InterfaceDetails → (Nat → Option Nat) × Option RegError
  | dm, [] => (dm, none)
  | dm, iface :: rest =>
    if iface.iid = kIComponentIid then
      registerDefaultsLoop clsid dm rest
    else
      match dm iface.iid with
      | some _ => (dm, some .defaultConflict)
      | none => registerDefaultsLoop clsid (updN dm iface.iid (some clsid)) rest

/-- Embedding of PluginManager::RegisterComponent
(plugin_manager.cpp).  Returns the state after the call together with
the thrown error, if any: a duplicate ClassId throws before any
mutation; a default conflict throws with the defaults already recorded
for earlier interfaces of the same call left in place; on success the
descriptor is stored (with source_plugin_path taken from
current_loading_plugin_path_) and a non-empty alias is bound,
unconditionally overwriting any existing binding of that alias.  The
best-effort ComponentRegisterEvent emission does not touch registry
state and is not modelled. -/
def RegisterComponent (st : Registry) (clsid : Nat) (factory : Nat → Option Obj)
    (is_singleton : Bool) («alias» : String)
    (implemented_interfaces : List InterfaceDetails) (is_default : Bool) :
    Registry × Option RegError :=
  if (st.components clsid).isSome then
    (st, some .duplicateClsid)
  else
    let dmres :=
      if is_default then registerDefaultsLoop clsid st.default_map implemented_interfaces
      else (st.default_map, none)
    match dmres.2 with
    | some e => ({ st with default_map := dmres.1 }, some e)
    | none =>
      ({ st with
          default_map := dmres.1,
          components := updN st.components clsid
            (some ⟨factory, is_singleton, «alias», st.current_loading_plugin_path,
              implemented_interfaces, is_default⟩),
          alias_map :=
            if «alias» = "" then st.alias_map
            else updS st.alias_map «alias» (some clsid) }, none)

/-- One iteration of PluginManager::RollbackRegistrations
(plugin_manager.cpp): an unknown ClassId is skipped; otherwise the
non-empty alias entry is erased, default-map entries still pointing to
this ClassId (over the descriptor's implemented interfaces, when it
was a default registration) are erased, any cached singleton is
evicted, and the descriptor itself is erased. -/
def rollbackOne (st : Registry) (clsid : Nat) : Registry :=
  match st.components clsid with
  | none => st
  | some info =>
    { st with
      alias_map :=
        if info.«alias» = "" then st.alias_map
        else updS st.alias_map info.«alias» none,
      default_map :=
        if info.is_default_registration then
          info.implemented_interfaces.foldl
            (fun dm iface =>
              if dm iface.iid = some clsid then updN dm iface.iid none else dm)
            st.default_map
        else st.default_map,
      singletons := updN st.singletons clsid none,
      components := updN st.components clsid none }

/-- Embedding of PluginManager::RollbackRegistrations
(plugin_manager.cpp): process the ClassId list in order. -/
def RollbackRegistrations (st : Registry) (clsid_list : List Nat) : Registry :=
  clsid_list.foldl rollbackOne st

/-- A ClassId is unreachable through every registry key: absent from
components, no alias maps to it, no defaults entry maps to it, and it
has no cached singleton entry. -/
def Unreachable (st : Registry) (c : Nat) : Prop :=
  st.components c = none ∧
  (∀ a, st.alias_map a ≠ some c) ∧
  (∀ i, st.default_map i ≠ some c) ∧
  st.singletons c = none

/-- The registry's reachable-state consistency at a ClassId c, as
established by RegisterComponent for every ClassId it inserts: any
alias entry pointing to c is the non-empty alias stored in c's own
descriptor; any defaults entry pointing to c comes from a default
registration of c over one of its implemented interfaces; a cached
singleton for c implies c is registered. -/
def ReachInvAt (st : Registry) (c : Nat) : Prop :=
  (∀ a, st.alias_map a = some c →
    a ≠ "" ∧ ∃ info, st.components c = some info ∧ info.«alias» = a) ∧
  (∀ i, st.default_map i = some c →
    ∃ info, st.components c = some info ∧ info.is_default_registration = true ∧
      i ∈ info.implemented_interfaces.map (fun d => d.iid)) ∧
  ((st.singletons c).isSome → (st.components c).isSome)

/-- An empty registry (no components, aliases, defaults or cached
singletons). -/
def emptyReg : Registry where
  components := fun _ => none
  singletons := fun _ => none
  alias_map := fun _ => none
  default_map := fun _ => none
  current_loading_plugin_path := ""
  freshCounter := 0

/-! ## Event bus: framework/i_event_bus.h, event_bus_impl.cpp -/

/-- Embedding of z3y::ConnectionType (connection_type.h). -/
inductive ConnectionType where
  | kDirect
  | kQueued
  deriving DecidableEq

/-- Embedding of PluginManager::Subscription (plugin_manager.h) for
subscriptions created by IEventBus::SubscribeGlobal: the weak
subscriber id (an opaque identity) and the delivery mode.  The stored
callback is the SubscribeGlobal wrapper, whose behaviour is fully
determined by the subscriber id (see runWrapper); sender_id is empty
for global subscriptions and is not modelled here. -/
structure Subscription where
  subscriber_id : Nat
  connection_type : ConnectionType

/-- The wrapper SubscribeGlobal builds around the user callback
(i_event_bus.h): lock the captured weak subscriber reference and,
only if it still locks, invoke the member callback once.  The result
is the trace of user-callback invocations (by subscriber id) that the
wrapper performs; alive tells which subscribers can still be locked at
the moment the wrapper runs. -/
def runWrapper (alive : Nat → Bool) (s : Nat) : List Nat :=
  if alive s then [s] else []

/-- Embedding of PluginManager::CleanupExpiredSubscriptions
(event_bus_impl.cpp), global flavour (check_sender_also = false):
erase the subscriptions whose subscriber weak reference is expired,
pushing each erased subscriber id into the gc queue in list order. -/
def CleanupExpiredSubscriptions (subs : List Subscription) (expired : Nat → Bool) :
    List Subscription × List Nat :=
  (subs.filter (fun s => !expired s.subscriber_id),
   (subs.filter (fun s => expired s.subscriber_id)).map (fun s => s.subscriber_id))

/-- The observable outcome of PluginManager::FireGlobalImpl
(event_bus_impl.cpp) on the subscription list of one event id. -/
structure FireOutcome where
  survivors : List Subscription
  directTrace : List Nat
  queuedTask : Option (List Nat)

/-- Embedding of PluginManager::FireGlobalImpl (event_bus_impl.cpp):
under the event lock, evict expired subscriptions (filling the gc
queue), then partition the surviving list in order into direct and
queued callbacks; after releasing the lock run every direct callback
on the publisher's thread (the wrapper locks the weak subscriber,
whose aliveness at that moment is the complement of expiry at publish
time), and, only if the queued snapshot is non-empty, push one
composite task capturing that snapshot into the task queue. -/
def FireGlobalImpl (subs : List Subscription) (expiredAtPublish : Nat → Bool) :
    FireOutcome :=
  let cleaned := (CleanupExpiredSubscriptions subs expiredAtPublish).1
  let direct := cleaned.filter (fun s => s.connection_type = ConnectionType.kDirect)
  let queued := cleaned.filter (fun s => ¬s.connection_type = ConnectionType.kDirect)
  { survivors := cleaned,
    directTrace :=
      direct.flatMap (fun s => runWrapper (fun x => !expiredAtPublish x) s.subscriber_id),
    queuedTask :=
      if queued.isEmpty then none
      else some (queued.map (fun s => s.subscriber_id)) }

/-- The worker thread executing one dequeued composite task
(event_bus_impl.cpp, EventLoop step 1a: the popped task runs every
captured queued callback in snapshot order; each wrapper locks the
captured weak subscriber at that moment and calls the user callback
only if the subscriber is still alive). -/
def RunQueuedTask (task : List Nat) (aliveAtDequeue : Nat → Bool) : List Nat :=
  task.flatMap (fun s => runWrapper aliveAtDequeue s)

/-! ## Example plugins: plugin_example, interfaces_example -/

/-- The string SimpleImplA::GetSimpleString returns
(simple_impl_a.cpp; the ILogger side effect does not change the
returned value). -/
def SimpleImplA_GetSimpleString : String :=
  "Hello from SimpleImplA (and I just logged a message!)"

/-- The string SimpleImplB::GetSimpleString returns
(simple_impl_b.cpp). -/
def SimpleImplB_GetSimpleString : String := "Hello from SimpleImplB"

/-- ISimple's interface id (i_simple.h,
Z3Y_DEFINE_INTERFACE(ISimple, "z3y-example-ISimple-IID-A4736128", 1, 0)). -/
def ISimple_kIid : Nat := ConstexprHash (strBytes "z3y-example-ISimple-IID-A4736128")

/-- ISimple's InterfaceDetails entry at version 1.0. -/
def iSimpleEntry : InterfaceDetails := ⟨ISimple_kIid, "ISimple", ⟨1, 0⟩⟩

/-- ILogger's interface id (i_logger.h,
Z3Y_DEFINE_INTERFACE(ILogger, "z3y-example-ILogger-IID-B1B542F8", 1, 0)). -/
def ILogger_kIid : Nat := ConstexprHash (strBytes "z3y-example-ILogger-IID-B1B542F8")

/-- ILogger's InterfaceDetails entry at version 1.0. -/
def iLoggerEntry : InterfaceDetails := ⟨ILogger_kIid, "ILogger", ⟨1, 0⟩⟩

/-- SimpleImplA's ClassId (simple_impl_a.h,
Z3Y_DEFINE_COMPONENT_ID("z3y-example-CSimpleImplA-UUID-A9407176")). -/
def SimpleImplA_kClsid : Nat :=
  ConstexprHash (strBytes "z3y-example-CSimpleImplA-UUID-A9407176")

/-- SimpleImplB's ClassId (simple_impl_b.h, kCSimpleB). -/
def SimpleImplB_kClsid : Nat :=
  ConstexprHash (strBytes "z3y-example-csimple-impl-B-UUID")

/-- LoggerService's ClassId (logger_service.h, kCLoggerService). -/
def LoggerService_kClsid : Nat :=
  ConstexprHash (strBytes
    "z3y-example-cloggerservice-uuid-8C49F3D0-4034-4166-85D4-38E70E83D59D")

/-- The factory RegisterComponent generates for SimpleImplA
(plugin_registration.h): make_shared of the implementation; instance
identity is modelled by the implementation's ClassId, the interface
pack is [ISimple]. -/
def SimpleImplA_factory : Nat → Option Obj :=
  fun _ => some ⟨SimpleImplA_kClsid, [iSimpleEntry]⟩

/-- The factory for SimpleImplB. -/
def SimpleImplB_factory : Nat → Option Obj :=
  fun _ => some ⟨SimpleImplB_kClsid, [iSimpleEntry]⟩

/-- The factory for LoggerService (interface pack [ILogger]). -/
def LoggerService_factory : Nat → Option Obj :=
  fun _ => some ⟨LoggerService_kClsid, [iLoggerEntry]⟩

/-- GetSimpleString dispatched over the example instances: a
SimpleImplA instance returns SimpleImplA's string, a SimpleImplB
instance SimpleImplB's string. -/
def exampleGetSimpleString (o : Obj) : String :=
  if o.oid = SimpleImplA_kClsid then SimpleImplA_GetSimpleString
  else if o.oid = SimpleImplB_kClsid then SimpleImplB_GetSimpleString
  else ""

/-- The registry after the example plugin's three auto-registrations
(simple_impl_a.cpp: Z3Y_AUTO_REGISTER_COMPONENT(SimpleImplA,
"Simple.A", true); simple_impl_b.cpp:
Z3Y_AUTO_REGISTER_COMPONENT(SimpleImplB, "Simple.B", false);
logger_service.cpp: Z3Y_AUTO_REGISTER_SERVICE(LoggerService,
"Logger.Default", true)) applied to an empty registry; the final state
does not depend on the static-initialisation order because the three
ClassIds, aliases and default interfaces are pairwise disjoint. -/
def exampleReg : Registry :=
  (RegisterComponent
    (RegisterComponent
      (RegisterComponent emptyReg SimpleImplA_kClsid SimpleImplA_factory false
        "Simple.A" (GetInterfaceDetails [iSimpleEntry]) true).1
      SimpleImplB_kClsid SimpleImplB_factory false
      "Simple.B" (GetInterfaceDetails [iSimpleEntry]) false).1
    LoggerService_kClsid LoggerService_factory true
    "Logger.Default" (GetInterfaceDetails [iLoggerEntry]) true).1

/-- Modelled from the spec (section 4.5, get_default_instance): look
up defaults[T::iid] and delegate to GetService or CreateInstance
according to the descriptor's is_singleton.  The source's
CreateDefaultInstance / GetDefaultService members referenced from
z3y_service_locator.h are not under src; a missing default or
descriptor surfaces as kErrorClsidNotFound. -/
def CreateDefaultInstance (st : Registry) (alive : Nat → Bool) (t : Target) :
    Except InstanceError ResolveOk :=
  match st.default_map t.iid with
  | none => .error .kErrorClsidNotFound
  | some clsid =>
    match st.components clsid with
    | none => .error .kErrorClsidNotFound
    | some info =>
      if info.is_singleton then GetServiceClsid st alive t clsid
      else CreateInstanceClsid st t clsid

/-! ## Concrete sample fixtures (used by witness theorems) -/

/-- A sample interface at version 1.0, with an iid distinct from the
root IComponent iid. -/
def sIface : InterfaceDetails := ⟨7, "IThing", ⟨1, 0⟩⟩

/-- A sample factory: each invocation yields a distinct instance
implementing sIface. -/
def sFactory : Nat → Option Obj := fun n => some ⟨100 + n, [sIface]⟩

/-- A sample non-singleton (transient) component descriptor. -/
def sInfoComponent : ComponentInfo :=
  ⟨sFactory, false, "thing", "p.so", GetInterfaceDetails [sIface], false⟩

/-- A sample singleton (service) component descriptor. -/
def sInfoService : ComponentInfo :=
  ⟨sFactory, true, "serv", "p.so", GetInterfaceDetails [sIface], false⟩

/-- A sample registry: the transient component under ClassId 42 with
alias "thing", the service under ClassId 43 with alias "serv", no
cached singletons and no defaults. -/
def sReg : Registry where
  components := fun c =>
    if c = 42 then some sInfoComponent else if c = 43 then some sInfoService else none
  singletons := fun _ => none
  alias_map := fun a =>
    if a = "thing" then some 42 else if a = "serv" then some 43 else none
  default_map := fun _ => none
  current_loading_plugin_path := "p.so"
  freshCounter := 0

/-- The sample target interface type: asks for sIface at version
1.0. -/
def sTarget : Target := ⟨7, 1, 0⟩

/-- A sample interface used by the rollback fixture. -/
def rIface : InterfaceDetails := ⟨9, "IRoll", ⟨1, 0⟩⟩

/-- A sample singleton descriptor registered as default for rIface
with alias "roll". -/
def rInfo : ComponentInfo :=
  ⟨sFactory, true, "roll", "q.so", GetInterfaceDetails [rIface], true⟩

/-- A registry where ClassId 50 is reachable through all four keys:
descriptor, alias "roll", default for rIface, and a cached
singleton. -/
def rReg : Registry where
  components := fun c => if c = 50 then some rInfo else none
  singletons := fun c => if c = 50 then some ⟨⟨500, [rIface]⟩⟩ else none
  alias_map := fun a => if a = "roll" then some 50 else none
  default_map := fun i => if i = 9 then some 50 else none
  current_loading_plugin_path := ""
  freshCounter := 0

/-- Interfaces for the partial-default-registration fixture. -/
def bIface1 : InterfaceDetails := ⟨11, "IBugOne", ⟨1, 0⟩⟩

/-- Second interface of the partial-default-registration fixture. -/
def bIface2 : InterfaceDetails := ⟨12, "IBugTwo", ⟨1, 0⟩⟩

/-- A descriptor already registered as default for bIface2. -/
def bInfo : ComponentInfo :=
  ⟨sFactory, false, "b0", "r.so", GetInterfaceDetails [bIface2], true⟩

/-- A registry where ClassId 60 is the default for bIface2 (iid 12):
registering another default that implements bIface1 and bIface2
conflicts on bIface2 after having already recorded bIface1. -/
def bReg : Registry where
  components := fun c => if c = 60 then some bInfo else none
  singletons := fun _ => none
  alias_map := fun a => if a = "b0" then some 60 else none
  default_map := fun i => if i = 12 then some 60 else none
  current_loading_plugin_path := "r.so"
  freshCounter := 0

/-! ## Theorems about the identity hash (claim C6) -/

theorem fnv1aHashRt_eq_foldl (l : List Nat) (h : Nat) :
    Fnv1aHashRt l h = l.foldl (fun a b => ((a ^^^ b) * kFnvPrime) % UInt64Mod) h := by
  induction l generalizing h with
  | nil => rfl
  | cons c rest ih => simp [Fnv1aHashRt, List.foldl, ih]

/-- C6 counterexample: at the explicit concrete input "" (the empty
string literal), ConstexprHash returns the invalid-id sentinel 0 while
the FNV-1a-64 fold described by the claim returns the offset basis, so
the claim as stated is false at that input. -/
theorem c6_counterexample_empty_string :
    ConstexprHash (strBytes "") ≠ fnv1aSpecFold (strBytes "") ∧
    ConstexprHash (strBytes "") = 0 ∧
    fnv1aSpecFold (strBytes "") = kFnvOffsetBasis := by
  decide

/-- C6 (amended): for every non-empty string literal s, ConstexprHash
of s equals the FNV-1a 64-bit fold that starts from the offset basis
0xcbf29ce484222325 and, for each byte, XORs the byte into the
accumulator and multiplies by the prime 0x100000001b3 modulo 2 ^ 64;
consequently two declarations with the same literal produce the same
64-bit id. -/
theorem c6_constexpr_hash_matches_fnv1a (s : List Nat) (h : s ≠ []) :
    ConstexprHash s = fnv1aSpecFold s ∧
    (∀ t : List Nat, t = s → ConstexprHash t = ConstexprHash s) := by
  refine ⟨?_, fun t ht => by rw [ht]⟩
  unfold ConstexprHash fnv1aSpecFold
  rw [if_neg h, fnv1aHashRt_eq_foldl]

theorem c6_constexpr_hash_matches_fnv1a_witness :
    ConstexprHash (strBytes "z3y-example-ISimple-IID-A4736128") =
      fnv1aSpecFold (strBytes "z3y-example-ISimple-IID-A4736128") :=
  (c6_constexpr_hash_matches_fnv1a (strBytes "z3y-example-ISimple-IID-A4736128")
    (by decide)).1

/-! ## Theorems about the versioned query (claim C1) -/

theorem queryRecursive_eq_find (l : List InterfaceDetails) (iid major minor : Nat) :
    QueryRecursive l iid major minor =
      match l.find? (fun d => iid = d.iid) with
      | none => (none, InstanceError.kErrorInterfaceNotImpl)
      | some e =>
        if e.version.major ≠ major then (none, InstanceError.kErrorVersionMajorMismatch)
        else if e.version.minor < minor then (none, InstanceError.kErrorVersionMinorTooLow)
        else (some e, InstanceError.kSuccess) := by
  induction l with
  | nil => rfl
  | cons first rest ih =>
    by_cases h : iid = first.iid
    · rw [List.find?_cons_of_pos _ (by simpa using h)]
      simp only [QueryRecursive, if_pos h]
    · rw [List.find?_cons_of_neg _ (by simpa using h)]
      simpa only [QueryRecursive, if_neg h] using ih

/-- C1: PluginImpl::QueryInterfaceRaw's contract.  If the requested
iid is not in the component's implemented interface list (the root
IComponent interface included) the query returns a null pointer with
kErrorInterfaceNotImpl; otherwise, with (M, m) the component's
declared version for that interface, a requested major other than M
yields null with kErrorVersionMajorMismatch, a requested minor above m
yields null with kErrorVersionMinorTooLow, and otherwise the query
returns a non-null pointer to that interface's sub-object together
with kSuccess. -/
theorem c1_query_interface_version_contract
    (interfaces : List InterfaceDetails) (iid major minor : Nat) :
    (declaredVersion interfaces iid = none →
      QueryInterfaceRaw interfaces iid major minor =
        (none, InstanceError.kErrorInterfaceNotImpl)) ∧
    (∀ v, declaredVersion interfaces iid = some v →
      (major ≠ v.major →
        QueryInterfaceRaw interfaces iid major minor =
          (none, InstanceError.kErrorVersionMajorMismatch)) ∧
      (major = v.major → v.minor < minor →
        QueryInterfaceRaw interfaces iid major minor =
          (none, InstanceError.kErrorVersionMinorTooLow)) ∧
      (major = v.major → minor ≤ v.minor →
        ∃ p, QueryInterfaceRaw interfaces iid major minor = (some p, InstanceError.kSuccess) ∧
          p.iid = iid)) := by
  unfold declaredVersion QueryInterfaceRaw GetInterfaceDetails
  by_cases hroot : iid = kIComponentIid
  · rw [List.find?_cons_of_pos _ (by simpa [iComponentEntry] using hroot)]
    refine ⟨by simp, fun v hv => ?_⟩
    have hv' : iComponentEntry.version = v := by simpa using hv
    subst hv'
    refine ⟨fun hmaj => ?_, fun hmaj hmin => ?_, fun hmaj hmin => ?_⟩
    · rw [if_pos hroot, if_pos (by simpa [iComponentEntry] using (Ne.symm hmaj))]
    · rw [if_pos hroot, if_neg (by simpa [iComponentEntry] using hmaj.symm),
        if_pos (by simpa [iComponentEntry] using hmin)]
    · refine ⟨iComponentEntry, ?_, by simpa [iComponentEntry] using hroot.symm⟩
      rw [if_pos hroot, if_neg (by simpa [iComponentEntry] using hmaj.symm),
        if_neg (by simpa [iComponentEntry] using Nat.not_lt.mpr hmin)]
  · rw [List.find?_cons_of_neg _ (by simpa [iComponentEntry] using hroot),
      if_neg hroot, queryRecursive_eq_find]
    cases hfind : interfaces.find? (fun d => iid = d.iid) with
    | none => exact ⟨fun _ => rfl, fun v hv => by simp [hfind] at hv⟩
    | some e =>
      have hiid : iid = e.iid := by
        have := List.find?_some hfind
        simpa using this
      refine ⟨by simp, fun v hv => ?_⟩
      have hv' : e.version = v := by simpa using hv
      subst hv'
      dsimp only
      refine ⟨fun hmaj => ?_, fun hmaj hmin => ?_, fun hmaj hmin => ?_⟩
      · rw [if_pos (Ne.symm hmaj)]
      · rw [if_neg (by simpa using hmaj.symm), if_pos hmin]
      · exact ⟨e, by rw [if_neg (by simpa using hmaj.symm),
          if_neg (Nat.not_lt.mpr hmin)], hiid.symm⟩

theorem c1_query_interface_version_contract_witness :
    QueryInterfaceRaw [⟨5, "ISample", ⟨1, 2⟩⟩] 5 2 0 =
      (none, InstanceError.kErrorVersionMajorMismatch) :=
  ((c1_query_interface_version_contract [⟨5, "ISample", ⟨1, 2⟩⟩] 5 2 0).2
    ⟨1, 2⟩ (by decide)).1 (by decide)

/-! ## Theorems about the resolver error surface (claim C2) -/

theorem queryRecursive_success_isSome (l : List InterfaceDetails) (iid M m : Nat)
    (h : (QueryRecursive l iid M m).2 = InstanceError.kSuccess) :
    ((QueryRecursive l iid M m).1).isSome := by
  rw [queryRecursive_eq_find] at h ⊢
  cases hf : l.find? (fun d => iid = d.iid) with
  | none => simp_all
  | some e =>
    try dsimp only at h ⊢
    split_ifs at h ⊢ <;> simp_all

theorem queryInterfaceRaw_success_isSome (l : List InterfaceDetails) (iid M m : Nat)
    (h : (QueryInterfaceRaw l iid M m).2 = InstanceError.kSuccess) :
    ((QueryInterfaceRaw l iid M m).1).isSome := by
  unfold QueryInterfaceRaw at h ⊢
  by_cases h1 : iid = kIComponentIid
  · rw [if_pos h1] at h ⊢
    split_ifs at h ⊢
    all_goals simp_all
  · rw [if_neg h1] at h ⊢
    exact queryRecursive_success_isSome l iid M m h

theorem pluginCast_eq (t : Target) (o : Obj) :
    PluginCast t (some o) =
      ((QueryInterfaceRaw o.interfaces t.iid t.major t.minor).1.map
        (fun p => (⟨o, p⟩ : Handle)),
       (QueryInterfaceRaw o.interfaces t.iid t.major t.minor).2) := by
  unfold PluginCast
  dsimp only
  cases hq : QueryInterfaceRaw o.interfaces t.iid t.major t.minor with
  | mk p e => cases p <;> rfl

theorem pluginCast_success_isSome (t : Target) (ob : Option Obj)
    (h : (PluginCast t ob).2 = InstanceError.kSuccess) :
    ((PluginCast t ob).1).isSome := by
  cases ob with
  | none => simp [PluginCast] at h
  | some o =>
    rw [pluginCast_eq] at h ⊢
    dsimp only at h ⊢
    have := queryInterfaceRaw_success_isSome o.interfaces t.iid t.major t.minor h
    simpa using this

theorem createInstanceClsid_ok_isSome (st : Registry) (t : Target) (clsid : Nat)
    (r : ResolveOk) (h : CreateInstanceClsid st t clsid = .ok r) :
    r.out_ptr.isSome := by
  unfold CreateInstanceClsid at h
  cases hC : st.components clsid with
  | none =>
    try rw [hC] at h
    try dsimp only at h
    exact absurd h (by simp)
  | some info =>
    try rw [hC] at h
    try dsimp only at h
    by_cases hs : info.is_singleton
    · rw [if_pos hs] at h
      exact absurd h (by simp)
    · rw [if_neg hs] at h
      cases hF : info.factory st.freshCounter with
      | none =>
        try rw [hF] at h
        try dsimp only at h
        exact absurd h (by simp)
      | some base_obj =>
        try rw [hF] at h
        try dsimp only at h
        by_cases hc : (PluginCast t (some base_obj)).2 ≠ InstanceError.kSuccess
        · rw [if_pos hc] at h
          exact absurd h (by simp)
        · rw [if_neg hc] at h
          cases h
          exact pluginCast_success_isSome t (some base_obj) (not_ne_iff.mp hc)

theorem createInstanceClsid_error_ne (st : Registry) (t : Target) (clsid : Nat)
    (e : InstanceError) (h : CreateInstanceClsid st t clsid = .error e) :
    e ≠ InstanceError.kSuccess := by
  unfold CreateInstanceClsid at h
  cases hC : st.components clsid with
  | none =>
    try rw [hC] at h
    try dsimp only at h
    cases h
    decide
  | some info =>
    try rw [hC] at h
    try dsimp only at h
    by_cases hs : info.is_singleton
    · rw [if_pos hs] at h
      cases h
      decide
    · rw [if_neg hs] at h
      cases hF : info.factory st.freshCounter with
      | none =>
        try rw [hF] at h
        try dsimp only at h
        cases h
        decide
      | some base_obj =>
        try rw [hF] at h
        try dsimp only at h
        by_cases hc : (PluginCast t (some base_obj)).2 ≠ InstanceError.kSuccess
        · rw [if_pos hc] at h
          cases h
          exact hc
        · rw [if_neg hc] at h
          exact absurd h (by simp)

theorem getServiceCreate_ok_isSome (st : Registry) (t : Target) (clsid : Nat)
    (info : ComponentInfo) (r : ResolveOk)
    (h : getServiceCreate st t clsid info = .ok r) :
    r.out_ptr.isSome := by
  unfold getServiceCreate at h
  cases hF : info.factory st.freshCounter with
  | none =>
    try rw [hF] at h
    try dsimp only at h
    exact absurd h (by simp)
  | some base_obj =>
    try rw [hF] at h
    try dsimp only at h
    by_cases hc : (PluginCast t (some base_obj)).2 ≠ InstanceError.kSuccess
    · rw [if_pos hc] at h
      exact absurd h (by simp)
    · rw [if_neg hc] at h
      cases h
      exact pluginCast_success_isSome t (some base_obj) (not_ne_iff.mp hc)

theorem getServiceCreate_error_ne (st : Registry) (t : Target) (clsid : Nat)
    (info : ComponentInfo) (e : InstanceError)
    (h : getServiceCreate st t clsid info = .error e) :
    e ≠ InstanceError.kSuccess := by
  unfold getServiceCreate at h
  cases hF : info.factory st.freshCounter with
  | none =>
    try rw [hF] at h
    try dsimp only at h
    cases h
    decide
  | some base_obj =>
    try rw [hF] at h
    try dsimp only at h
    by_cases hc : (PluginCast t (some base_obj)).2 ≠ InstanceError.kSuccess
    · rw [if_pos hc] at h
      cases h
      exact hc
    · rw [if_neg hc] at h
      exact absurd h (by simp)

theorem getServiceClsid_ok_isSome (st : Registry) (alive : Nat → Bool) (t : Target)
    (clsid : Nat) (r : ResolveOk) (h : GetServiceClsid st alive t clsid = .ok r) :
    r.out_ptr.isSome := by
  unfold GetServiceClsid at h
  cases hC : st.components clsid with
  | none =>
    try rw [hC] at h
    try dsimp only at h
    exact absurd h (by simp)
  | some info =>
    try rw [hC] at h
    try dsimp only at h
    by_cases hs : (!info.is_singleton) = true
    · rw [if_pos hs] at h
      exact absurd h (by simp)
    · rw [if_neg hs] at h
      cases hW : st.singletons clsid with
      | none =>
        try rw [hW] at h
        try dsimp only at h
        exact getServiceCreate_ok_isSome st t clsid info r h
      | some w =>
        try rw [hW] at h
        try dsimp only at h
        by_cases ha : alive w.target.oid
        · rw [if_pos ha] at h
          by_cases hc : (PluginCast t (some w.target)).2 ≠ InstanceError.kSuccess
          · rw [if_pos hc] at h
            exact absurd h (by simp)
          · rw [if_neg hc] at h
            cases h
            exact pluginCast_success_isSome t (some w.target) (not_ne_iff.mp hc)
        · rw [if_neg ha] at h
          exact getServiceCreate_ok_isSome st t clsid info r h

theorem getServiceClsid_error_ne (st : Registry) (alive : Nat → Bool) (t : Target)
    (clsid : Nat) (e : InstanceError) (h : GetServiceClsid st alive t clsid = .error e) :
    e ≠ InstanceError.kSuccess := by
  unfold GetServiceClsid at h
  cases hC : st.components clsid with
  | none =>
    try rw [hC] at h
    try dsimp only at h
    cases h
    decide
  | some info =>
    try rw [hC] at h
    try dsimp only at h
    by_cases hs : (!info.is_singleton) = true
    · rw [if_pos hs] at h
      cases h
      decide
    · rw [if_neg hs] at h
      cases hW : st.singletons clsid with
      | none =>
        try rw [hW] at h
        try dsimp only at h
        exact getServiceCreate_error_ne st t clsid info e h
      | some w =>
        try rw [hW] at h
        try dsimp only at h
        by_cases ha : alive w.target.oid
        · rw [if_pos ha] at h
          by_cases hc : (PluginCast t (some w.target)).2 ≠ InstanceError.kSuccess
          · rw [if_pos hc] at h
            cases h
            exact hc
          · rw [if_neg hc] at h
            exact absurd h (by simp)
        · rw [if_neg ha] at h
          exact getServiceCreate_error_ne st t clsid info e h

/-- C2: for every key, the four resolver entry points either return a
handle that is non-empty, or raise a PluginException whose error code
is in the closed non-success set; an unknown alias raises
kErrorAliasNotFound, an unknown ClassId raises kErrorClsidNotFound,
GetService on a non-singleton descriptor raises kErrorNotAService,
CreateInstance on a singleton descriptor raises kErrorNotAComponent, a
factory returning an empty pointer raises kErrorFactoryFailed, and no
entry point returns an empty handle with success. -/
theorem c2_resolver_error_surface (st : Registry) (alive : Nat → Bool) (t : Target)
    (a : String) (clsid : Nat) :
    (∀ r, CreateInstanceClsid st t clsid = .ok r → r.out_ptr.isSome) ∧
    (∀ r, GetServiceClsid st alive t clsid = .ok r → r.out_ptr.isSome) ∧
    (∀ r, CreateInstanceAlias st t a = .ok r → r.out_ptr.isSome) ∧
    (∀ r, GetServiceAlias st alive t a = .ok r → r.out_ptr.isSome) ∧
    (∀ e, CreateInstanceClsid st t clsid = .error e → e ≠ InstanceError.kSuccess) ∧
    (∀ e, GetServiceClsid st alive t clsid = .error e → e ≠ InstanceError.kSuccess) ∧
    (∀ e, CreateInstanceAlias st t a = .error e → e ≠ InstanceError.kSuccess) ∧
    (∀ e, GetServiceAlias st alive t a = .error e → e ≠ InstanceError.kSuccess) ∧
    (st.alias_map a = none →
      CreateInstanceAlias st t a = .error .kErrorAliasNotFound ∧
      GetServiceAlias st alive t a = .error .kErrorAliasNotFound) ∧
    (st.components clsid = none →
      CreateInstanceClsid st t clsid = .error .kErrorClsidNotFound ∧
      GetServiceClsid st alive t clsid = .error .kErrorClsidNotFound) ∧
    (∀ info, st.components clsid = some info → info.is_singleton = false →
      GetServiceClsid st alive t clsid = .error .kErrorNotAService) ∧
    (∀ info, st.components clsid = some info → info.is_singleton = true →
      CreateInstanceClsid st t clsid = .error .kErrorNotAComponent) ∧
    (∀ info, st.components clsid = some info → info.is_singleton = false →
      info.factory st.freshCounter = none →
      CreateInstanceClsid st t clsid = .error .kErrorFactoryFailed) ∧
    (∀ info, st.components clsid = some info → info.is_singleton = true →
      st.singletons clsid = none → info.factory st.freshCounter = none →
      GetServiceClsid st alive t clsid = .error .kErrorFactoryFailed) := by
  refine ⟨fun r h => createInstanceClsid_ok_isSome st t clsid r h,
    fun r h => getServiceClsid_ok_isSome st alive t clsid r h,
    ?_, ?_,
    fun e h => createInstanceClsid_error_ne st t clsid e h,
    fun e h => getServiceClsid_error_ne st alive t clsid e h,
    ?_, ?_, ?_, ?_, ?_, ?_, ?_, ?_⟩
  · intro r h
    unfold CreateInstanceAlias at h
    by_cases hz : GetClsidFromAlias st a = 0
    · rw [if_pos hz] at h; simp at h
    · rw [if_neg hz] at h
      exact createInstanceClsid_ok_isSome st t (GetClsidFromAlias st a) r h
  · intro r h
    unfold GetServiceAlias at h
    by_cases hz : GetClsidFromAlias st a = 0
    · rw [if_pos hz] at h; simp at h
    · rw [if_neg hz] at h
      exact getServiceClsid_ok_isSome st alive t (GetClsidFromAlias st a) r h
  · intro e h
    unfold CreateInstanceAlias at h
    by_cases hz : GetClsidFromAlias st a = 0
    · rw [if_pos hz] at h; cases h; decide
    · rw [if_neg hz] at h
      exact createInstanceClsid_error_ne st t (GetClsidFromAlias st a) e h
  · intro e h
    unfold GetServiceAlias at h
    by_cases hz : GetClsidFromAlias st a = 0
    · rw [if_pos hz] at h; cases h; decide
    · rw [if_neg hz] at h
      exact getServiceClsid_error_ne st alive t (GetClsidFromAlias st a) e h
  · intro halias
    constructor
    · simp [CreateInstanceAlias, GetClsidFromAlias, halias]
    · simp [GetServiceAlias, GetClsidFromAlias, halias]
  · intro hC
    constructor
    · simp [CreateInstanceClsid, hC]
    · simp [GetServiceClsid, hC]
  · intro info hC hs
    simp [GetServiceClsid, hC, hs]
  · intro info hC hs
    simp [CreateInstanceClsid, hC, hs]
  · intro info hC hs hF
    simp [CreateInstanceClsid, hC, hs, hF]
  · intro info hC hs hW hF
    simp [GetServiceClsid, getServiceCreate, hC, hs, hW, hF]

theorem c2_resolver_error_surface_witness :
    CreateInstanceClsid sReg sTarget 99 = .error .kErrorClsidNotFound ∧
    CreateInstanceClsid sReg sTarget 43 = .error .kErrorNotAComponent ∧
    GetServiceClsid sReg (fun _ => true) sTarget 42 = .error .kErrorNotAService ∧
    CreateInstanceAlias sReg sTarget "nope" = .error .kErrorAliasNotFound := by
  obtain ⟨-, -, -, -, -, -, -, -, hA, hClsid, -, -, -, -⟩ :=
    c2_resolver_error_surface sReg (fun _ => true) sTarget "nope" 99
  obtain ⟨-, -, -, -, -, -, -, -, -, -, hNAS, hNAC, -, -⟩ :=
    c2_resolver_error_surface sReg (fun _ => true) sTarget "nope" 43
  refine ⟨(hClsid rfl).1, hNAC sInfoService rfl rfl, ?_, (hA rfl).1⟩
  obtain ⟨-, -, -, -, -, -, -, -, -, -, hNAS2, -, -, -⟩ :=
    c2_resolver_error_surface sReg (fun _ => true) sTarget "nope" 42
  exact hNAS2 sInfoComponent rfl rfl

/-! ## Theorems about transactional rollback (claim C3) -/

theorem defaultFold_subset (clsid : Nat) (l : List InterfaceDetails)
    (dm : Nat → Option Nat) (i v : Nat)
    (h : (l.foldl (fun dm iface =>
        if dm iface.iid = some clsid then updN dm iface.iid none else dm) dm) i = some v) :
    dm i = some v := by
  induction l generalizing dm with
  | nil => simpa using h
  | cons iface rest ih =>
    simp only [List.foldl] at h
    have h2 := ih _ h
    by_cases hc : dm iface.iid = some clsid
    · rw [if_pos hc] at h2
      by_cases hi : i = iface.iid
      · simp [updN, hi] at h2
      · simpa [updN, hi] using h2
    · rwa [if_neg hc] at h2

theorem defaultFold_kills (clsid : Nat) (l : List InterfaceDetails)
    (dm : Nat → Option Nat) (i : Nat) (hi : i ∈ l.map (fun d => d.iid)) :
    (l.foldl (fun dm iface =>
      if dm iface.iid = some clsid then updN dm iface.iid none else dm) dm) i ≠
      some clsid := by
  induction l generalizing dm with
  | nil => simp at hi
  | cons iface rest ih =>
    simp only [List.map_cons, List.mem_cons] at hi
    simp only [List.foldl]
    by_cases hmem : i ∈ rest.map (fun d => d.iid)
    · exact ih _ hmem
    · have hi' : i = iface.iid := by tauto
      intro hcon
      have hstep := defaultFold_subset clsid rest _ i clsid hcon
      by_cases hc : dm iface.iid = some clsid
      · rw [if_pos hc] at hstep
        simp [updN, hi'] at hstep
      · rw [if_neg hc] at hstep
        rw [hi'] at hstep
        exact hc hstep

theorem rollbackOne_kills (st : Registry) (c : Nat) (h : ReachInvAt st c) :
    Unreachable (rollbackOne st c) c := by
  obtain ⟨hA, hD, hS⟩ := h
  unfold rollbackOne
  cases hC : st.components c with
  | none =>
    refine ⟨hC, ?_, ?_, ?_⟩
    · intro a ha
      obtain ⟨-, info, hci, -⟩ := hA a ha
      rw [hC] at hci
      exact Option.noConfusion hci
    · intro i hd
      obtain ⟨info, hci, -, -⟩ := hD i hd
      rw [hC] at hci
      exact Option.noConfusion hci
    · cases hsing : st.singletons c with
      | none => rfl
      | some w =>
        have := hS (by rw [hsing]; rfl)
        rw [hC] at this
        simp at this
  | some info =>
    refine ⟨by simp [updN], ?_, ?_, by simp [updN]⟩
    · intro a ha
      dsimp only at ha
      by_cases he : info.«alias» = ""
      · rw [if_pos he] at ha
        obtain ⟨hne, info', hci', ha'⟩ := hA a ha
        rw [hC] at hci'
        injection hci' with hii
        subst hii
        exact hne (ha' ▸ he)
      · rw [if_neg he] at ha
        by_cases hak : a = info.«alias»
        · simp [updS, hak] at ha
        · simp only [updS, if_neg hak] at ha
          obtain ⟨hne, info', hci', ha'⟩ := hA a ha
          rw [hC] at hci'
          injection hci' with hii
          subst hii
          exact hak ha'.symm
    · intro i hd
      dsimp only at hd
      by_cases hdef : info.is_default_registration
      · rw [if_pos hdef] at hd
        have hsub := defaultFold_subset c info.implemented_interfaces st.default_map i c hd
        obtain ⟨info', hci', -, hmem⟩ := hD i hsub
        rw [hC] at hci'
        injection hci' with hii
        subst hii
        exact defaultFold_kills c info.implemented_interfaces st.default_map i hmem hd
      · rw [if_neg hdef] at hd
        obtain ⟨info', hci', hdef', -⟩ := hD i hd
        rw [hC] at hci'
        injection hci' with hii
        subst hii
        exact hdef (by rw [hdef'])

theorem rollbackOne_preserves (st : Registry) (c c' : Nat) (h : ReachInvAt st c') :
    ReachInvAt (rollbackOne st c) c' := by
  by_cases hcc : c' = c
  · subst hcc
    obtain ⟨hcomp, hal, hdef, hsing⟩ := rollbackOne_kills st c' h
    refine ⟨fun a ha => absurd ha (hal a), fun i hd => absurd hd (hdef i), fun hs => ?_⟩
    rw [hsing] at hs
    simp at hs
  · obtain ⟨hA, hD, hS⟩ := h
    unfold rollbackOne
    cases hC : st.components c with
    | none => exact ⟨hA, hD, hS⟩
    | some info =>
      refine ⟨?_, ?_, ?_⟩
      · intro a ha
        dsimp only at ha
        have ha' : st.alias_map a = some c' := by
          by_cases he : info.«alias» = ""
          · rwa [if_pos he] at ha
          · rw [if_neg he] at ha
            by_cases hak : a = info.«alias»
            · simp [updS, hak] at ha
            · simpa [updS, hak] using ha
        obtain ⟨hne, info', hci', hia⟩ := hA a ha'
        refine ⟨hne, info', ?_, hia⟩
        simpa [updN, hcc] using hci'
      · intro i hd
        dsimp only at hd
        have hd' : st.default_map i = some c' := by
          by_cases hdef : info.is_default_registration
          · rw [if_pos hdef] at hd
            exact defaultFold_subset c info.implemented_interfaces st.default_map i c' hd
          · rwa [if_neg hdef] at hd
        obtain ⟨info', hci', hflag, hmem⟩ := hD i hd'
        refine ⟨info', ?_, hflag, hmem⟩
        simpa [updN, hcc] using hci'
      · intro hs
        dsimp only at hs ⊢
        simp only [updN, if_neg hcc] at hs ⊢
        exact hS hs

theorem rollbackOne_mono (st : Registry) (d c' : Nat) (h : Unreachable st c') :
    Unreachable (rollbackOne st d) c' := by
  obtain ⟨hc, ha, hd, hs⟩ := h
  unfold rollbackOne
  cases hC : st.components d with
  | none => exact ⟨hc, ha, hd, hs⟩
  | some info =>
    refine ⟨?_, ?_, ?_, ?_⟩
    · by_cases hcc : c' = d
      · simp [updN, hcc]
      · simp [updN, hcc, hc]
    · intro a hcon
      dsimp only at hcon
      have : st.alias_map a = some c' := by
        by_cases he : info.«alias» = ""
        · rwa [if_pos he] at hcon
        · rw [if_neg he] at hcon
          by_cases hak : a = info.«alias»
          · simp [updS, hak] at hcon
          · simpa [updS, hak] using hcon
      exact ha a this
    · intro i hcon
      dsimp only at hcon
      have : st.default_map i = some c' := by
        by_cases hdef : info.is_default_registration
        · rw [if_pos hdef] at hcon
          exact defaultFold_subset d info.implemented_interfaces st.default_map i c' hcon
        · rwa [if_neg hdef] at hcon
      exact hd i this
    · by_cases hcc : c' = d
      · simp [updN, hcc]
      · simp [updN, hcc, hs]

theorem rollback_cons (st : Registry) (d : Nat) (rest : List Nat) :
    RollbackRegistrations st (d :: rest) = RollbackRegistrations (rollbackOne st d) rest :=
  rfl

theorem rollback_fold_mono (L : List Nat) (st : Registry) (c' : Nat)
    (h : Unreachable st c') : Unreachable (RollbackRegistrations st L) c' := by
  induction L generalizing st with
  | nil => exact h
  | cons d rest ih =>
    rw [rollback_cons]
    exact ih (rollbackOne st d) (rollbackOne_mono st d c' h)

/-- C3: after RollbackRegistrations on a list L of ClassIds, no
ClassId in L is reachable through any registry key — it is absent from
the components map, no alias maps to it, no defaults entry maps to it,
and it has no cached singleton entry.  The hypothesis is the
reachable-state consistency (at each member of L) that
RegisterComponent establishes for every ClassId it inserts. -/
theorem c3_rollback_unreachable (st : Registry) (L : List Nat)
    (hinv : ∀ c ∈ L, ReachInvAt st c) :
    ∀ c ∈ L, Unreachable (RollbackRegistrations st L) c := by
  induction L generalizing st with
  | nil =>
    intro c hc
    simp at hc
  | cons d rest ih =>
    intro c hc
    rw [rollback_cons]
    rcases List.mem_cons.mp hc with rfl | hmem
    · exact rollback_fold_mono rest (rollbackOne st c) c
        (rollbackOne_kills st c (hinv c (by simp)))
    · exact ih (rollbackOne st d)
        (fun c'' hc'' => rollbackOne_preserves st d c'' (hinv c'' (by simp [hc'']))) c hmem

theorem c3_rollback_unreachable_witness :
    (RollbackRegistrations rReg [50]).components 50 = none ∧
    (RollbackRegistrations rReg [50]).alias_map "roll" ≠ some 50 ∧
    (RollbackRegistrations rReg [50]).default_map 9 ≠ some 50 ∧
    (RollbackRegistrations rReg [50]).singletons 50 = none := by
  have hinv : ∀ c ∈ [50], ReachInvAt rReg c := by
    intro c hc
    simp only [List.mem_singleton] at hc
    subst hc
    refine ⟨?_, ?_, ?_⟩
    · intro a ha
      by_cases hr : a = "roll"
      · subst hr
        exact ⟨by decide, rInfo, rfl, rfl⟩
      · simp [rReg, hr] at ha
    · intro i hd
      by_cases hi : i = 9
      · subst hi
        exact ⟨rInfo, rfl, rfl, by decide⟩
      · simp [rReg, hi] at hd
    · intro _
      simp [rReg]
  obtain ⟨h1, h2, h3, h4⟩ := c3_rollback_unreachable rReg [50] hinv 50 (by simp)
  exact ⟨h1, h2 "roll", h3 9, h4⟩

/-! ## Theorems about default and alias registration (claims C4, C5, C10) -/

theorem registerSingleDefault_conflict (st : Registry) (c : Nat) (f : Nat → Option Obj)
    (s : Bool) (a : String) (iface : InterfaceDetails) (c0 : Nat)
    (hroot : iface.iid ≠ kIComponentIid)
    (hfresh : st.components c = none)
    (hdm : st.default_map iface.iid = some c0) :
    RegisterComponent st c f s a (GetInterfaceDetails [iface]) true =
      (st, some RegError.defaultConflict) := by
  unfold RegisterComponent GetInterfaceDetails
  rw [hfresh]
  simp only [Option.isSome_none, Bool.false_eq_true, if_false, registerDefaultsLoop,
    iComponentEntry, if_pos, hroot, if_neg, hdm]

theorem registerSingleDefault_success (st : Registry) (c : Nat) (f : Nat → Option Obj)
    (s : Bool) (a : String) (iface : InterfaceDetails)
    (hroot : iface.iid ≠ kIComponentIid)
    (hfresh : st.components c = none)
    (hdm : st.default_map iface.iid = none) :
    RegisterComponent st c f s a (GetInterfaceDetails [iface]) true =
      ({ st with
          default_map := updN st.default_map iface.iid (some c),
          components := updN st.components c
            (some ⟨f, s, a, st.current_loading_plugin_path, GetInterfaceDetails [iface], true⟩),
          alias_map := if a = "" then st.alias_map else updS st.alias_map a (some c) },
        none) := by
  unfold RegisterComponent
  rw [hfresh]
  simp only [Option.isSome_none, Bool.false_eq_true, if_false, GetInterfaceDetails,
    registerDefaultsLoop, iComponentEntry, if_pos, hroot, if_neg, hdm]

/-- C4: with no default yet recorded for interface I, registering c1
as default for I succeeds and records defaults I = c1; a following
registration of a different c2 as default for I raises the conflict
error and leaves defaults I = c1.  Moreover, for any registry whose
defaults all point to registered ClassIds and any unregistered c3,
registering c3 as default for I fails with the conflict error exactly
when a default for I already exists pointing to a different
ClassId. -/
theorem c4_default_conflict (st : Registry) (c1 c2 : Nat) (iface : InterfaceDetails)
    (f1 f2 : Nat → Option Obj) (s1 s2 : Bool) (a1 a2 : String)
    (hne : c1 ≠ c2)
    (hroot : iface.iid ≠ kIComponentIid)
    (hfresh1 : st.components c1 = none)
    (hfresh2 : st.components c2 = none)
    (hnodef : st.default_map iface.iid = none) :
    (RegisterComponent st c1 f1 s1 a1 (GetInterfaceDetails [iface]) true).2 = none ∧
    (RegisterComponent st c1 f1 s1 a1 (GetInterfaceDetails [iface]) true).1.default_map
      iface.iid = some c1 ∧
    (RegisterComponent
        (RegisterComponent st c1 f1 s1 a1 (GetInterfaceDetails [iface]) true).1
        c2 f2 s2 a2 (GetInterfaceDetails [iface]) true).2 =
      some RegError.defaultConflict ∧
    (RegisterComponent
        (RegisterComponent st c1 f1 s1 a1 (GetInterfaceDetails [iface]) true).1
        c2 f2 s2 a2 (GetInterfaceDetails [iface]) true).1.default_map iface.iid =
      some c1 ∧
    (∀ (st' : Registry) (c3 : Nat),
      st'.components c3 = none →
      (∀ i c0, st'.default_map i = some c0 → (st'.components c0).isSome) →
      ((RegisterComponent st' c3 f2 s2 a2 (GetInterfaceDetails [iface]) true).2 =
          some RegError.defaultConflict ↔
        ∃ c0, st'.default_map iface.iid = some c0 ∧ c0 ≠ c3)) := by
  have h1 := registerSingleDefault_success st c1 f1 s1 a1 iface hroot hfresh1 hnodef
  have hdm1 : (RegisterComponent st c1 f1 s1 a1
      (GetInterfaceDetails [iface]) true).1.default_map iface.iid = some c1 := by
    rw [h1]
    simp [updN]
  have hfresh2' : (RegisterComponent st c1 f1 s1 a1
      (GetInterfaceDetails [iface]) true).1.components c2 = none := by
    rw [h1]
    have hne' : ¬c2 = c1 := fun h => hne h.symm
    simp [updN, hne', hfresh2]
  have h2 := registerSingleDefault_conflict
    (RegisterComponent st c1 f1 s1 a1 (GetInterfaceDetails [iface]) true).1
    c2 f2 s2 a2 iface c1 hroot hfresh2' hdm1
  refine ⟨by rw [h1], hdm1, by rw [h2], by rw [h2]; exact hdm1, ?_⟩
  intro st' c3 hfresh' hinv'
  constructor
  · intro hconf
    cases hdm' : st'.default_map iface.iid with
    | none =>
      rw [registerSingleDefault_success st' c3 f2 s2 a2 iface hroot hfresh' hdm'] at hconf
      simp at hconf
    | some c0 =>
      refine ⟨c0, rfl, ?_⟩
      intro hq
      subst hq
      have := hinv' iface.iid c0 hdm'
      rw [hfresh'] at this
      simp at this
  · rintro ⟨c0, hdm', -⟩
    rw [registerSingleDefault_conflict st' c3 f2 s2 a2 iface c0 hroot hfresh' hdm']

theorem c4_default_conflict_witness :
    (RegisterComponent
        (RegisterComponent emptyReg 1 sFactory false "A" (GetInterfaceDetails [sIface]) true).1
        2 sFactory false "B" (GetInterfaceDetails [sIface]) true).2 =
      some RegError.defaultConflict ∧
    (RegisterComponent
        (RegisterComponent emptyReg 1 sFactory false "A" (GetInterfaceDetails [sIface]) true).1
        2 sFactory false "B" (GetInterfaceDetails [sIface]) true).1.default_map sIface.iid =
      some 1 := by
  have h := c4_default_conflict emptyReg 1 2 sIface sFactory sFactory false false "A" "B"
    (by decide) (by decide) rfl rfl rfl
  exact ⟨h.2.2.1, h.2.2.2.1⟩

/-- C5 (behaviour of the code at the failing input): registering
ClassId 61 as default over implemented interfaces (IComponent,
bIface1, bIface2) against a registry where bIface2 already has a
default raises the conflict error, yet leaves defaults mapping
bIface1's iid 11 to 61 while 61 is not a key of the components map —
the defaults-map invariant the claim states is broken after the
failing RegisterComponent call. -/
theorem c5_register_breaks_default_invariant :
    (RegisterComponent bReg 61 sFactory false "b2"
        [iComponentEntry, bIface1, bIface2] true).2 = some RegError.defaultConflict ∧
    (RegisterComponent bReg 61 sFactory false "b2"
        [iComponentEntry, bIface1, bIface2] true).1.default_map 11 = some 61 ∧
    (RegisterComponent bReg 61 sFactory false "b2"
        [iComponentEntry, bIface1, bIface2] true).1.components 61 = none :=
  ⟨rfl, rfl, rfl⟩

/-- C10: a successful registration whose non-empty alias is already
bound to a different, still-registered ClassId c1 raises no error and
silently overwrites the alias binding: the alias map now maps the
alias to the new ClassId c2, c1 remains in the components map, and the
alias no longer resolves to c1. -/
theorem c10_alias_overwrite (st : Registry) (c1 c2 : Nat) (a : String)
    (info1 : ComponentInfo) (factory : Nat → Option Obj) (is_singleton : Bool)
    (impl : List InterfaceDetails)
    (_ha : st.alias_map a = some c1)
    (hc1 : st.components c1 = some info1)
    (hne : c1 ≠ c2)
    (hfresh : st.components c2 = none)
    (hanempty : a ≠ "") :
    (RegisterComponent st c2 factory is_singleton a impl false).2 = none ∧
    (RegisterComponent st c2 factory is_singleton a impl false).1.alias_map a = some c2 ∧
    (RegisterComponent st c2 factory is_singleton a impl false).1.components c1 =
      some info1 ∧
    GetClsidFromAlias (RegisterComponent st c2 factory is_singleton a impl false).1 a =
      c2 ∧
    GetClsidFromAlias (RegisterComponent st c2 factory is_singleton a impl false).1 a ≠
      c1 := by
  have hred : RegisterComponent st c2 factory is_singleton a impl false =
      ({ st with
          components := updN st.components c2
            (some ⟨factory, is_singleton, a, st.current_loading_plugin_path, impl, false⟩),
          alias_map := updS st.alias_map a (some c2) }, none) := by
    unfold RegisterComponent
    rw [hfresh]
    simp only [Option.isSome_none, Bool.false_eq_true, if_false, if_neg hanempty]
  rw [hred]
  refine ⟨rfl, by simp [updS], by simp [updN, hne, hc1], by simp [GetClsidFromAlias, updS],
    ?_⟩
  simp only [GetClsidFromAlias, updS, if_pos rfl, Option.getD_some]
  exact fun h => hne h.symm

theorem c10_alias_overwrite_witness :
    (RegisterComponent sReg 44 sFactory false "thing"
        (GetInterfaceDetails [sIface]) false).1.alias_map "thing" = some 44 ∧
    (RegisterComponent sReg 44 sFactory false "thing"
        (GetInterfaceDetails [sIface]) false).1.components 42 = some sInfoComponent := by
  have h := c10_alias_overwrite sReg 42 44 "thing" sInfoComponent sFactory false
    (GetInterfaceDetails [sIface]) rfl rfl (by decide) rfl (by decide)
  exact ⟨h.2.1, h.2.2.1⟩

/-! ## Theorems about singleton caching (claim C7) -/

/-- C7: the singleton discipline of GetService.  With no cached entry,
the factory runs and only a weak reference to the created base object
is stored in singletons_; with a cached weak reference that still
locks (at least one external handle keeps the instance alive), the
call returns a handle aliasing that same underlying instance without
running the factory and leaves the cache untouched; with an expired
cached reference (all external handles released), the factory runs
again and the newly constructed instance is cached.  The last conjunct
states that a successful cast's handle aliases exactly the object it
was given. -/
theorem c7_singleton_lifecycle (st : Registry) (alive : Nat → Bool) (t : Target)
    (clsid : Nat) (info : ComponentInfo)
    (hC : st.components clsid = some info)
    (hsing : info.is_singleton = true) :
    (st.singletons clsid = none →
      ∀ obj, info.factory st.freshCounter = some obj →
        (PluginCast t (some obj)).2 = InstanceError.kSuccess →
        GetServiceClsid st alive t clsid =
          .ok ⟨(PluginCast t (some obj)).1,
            { st with singletons := updN st.singletons clsid (some ⟨obj⟩),
                      freshCounter := st.freshCounter + 1 }, true⟩ ∧
        updN st.singletons clsid (some ⟨obj⟩) clsid = some ⟨obj⟩) ∧
    (∀ w, st.singletons clsid = some w → alive w.target.oid = true →
      (PluginCast t (some w.target)).2 = InstanceError.kSuccess →
      GetServiceClsid st alive t clsid =
        .ok ⟨(PluginCast t (some w.target)).1, st, false⟩) ∧
    (∀ w, st.singletons clsid = some w → alive w.target.oid = false →
      ∀ obj, info.factory st.freshCounter = some obj →
        (PluginCast t (some obj)).2 = InstanceError.kSuccess →
        GetServiceClsid st alive t clsid =
          .ok ⟨(PluginCast t (some obj)).1,
            { st with singletons := updN st.singletons clsid (some ⟨obj⟩),
                      freshCounter := st.freshCounter + 1 }, true⟩) ∧
    (∀ (o : Obj) (hnd : Handle), (PluginCast t (some o)).1 = some hnd → hnd.obj = o) := by
  refine ⟨?_, ?_, ?_, ?_⟩
  · intro hW obj hF hcast
    refine ⟨?_, by simp [updN]⟩
    simp [GetServiceClsid, getServiceCreate, hC, hsing, hW, hF, hcast]
  · intro w hW halive hcast
    simp [GetServiceClsid, hC, hsing, hW, halive, hcast]
  · intro w hW halive obj hF hcast
    simp [GetServiceClsid, getServiceCreate, hC, hsing, hW, halive, hF, hcast]
  · intro o hnd h
    rw [pluginCast_eq] at h
    dsimp only at h
    obtain ⟨p, -, hpb⟩ := Option.map_eq_some'.mp h
    cases hpb
    rfl

theorem c7_singleton_lifecycle_witness :
    (GetServiceClsid sReg (fun _ => true) sTarget 43).toOption.map
      (fun r => r.factory_called) = some true := by
  have h := (c7_singleton_lifecycle sReg (fun _ => true) sTarget 43 sInfoService
    rfl rfl).1 rfl ⟨100, [sIface]⟩ rfl (by decide)
  rw [h.1]
  rfl

/-! ## Theorems about queued event delivery (claim C8) -/

theorem runQueuedTask_count (task : List Nat) (alive : Nat → Bool) (S : Nat) :
    (RunQueuedTask task alive).count S = if alive S = true then task.count S else 0 := by
  induction task with
  | nil => simp [RunQueuedTask]
  | cons x rest ih =>
    have hcons : RunQueuedTask (x :: rest) alive =
        runWrapper alive x ++ RunQueuedTask rest alive := by
      simp [RunQueuedTask]
    rw [hcons, List.count_append, ih, runWrapper]
    by_cases hxs : x = S
    · subst hxs
      by_cases hx : alive x = true
      · simp [hx, List.count_cons]
        omega
      · simp [hx, List.count_cons]
    · by_cases hx : alive x = true
      · simp [hx, hxs, List.count_cons]
      · simp [hx, hxs, List.count_cons]

theorem count_map_subscriber (l : List Subscription) (S : Nat) :
    (l.map (fun s => s.subscriber_id)).count S =
      l.countP (fun s => s.subscriber_id == S) := by
  induction l with
  | nil => rfl
  | cons x rest ih => simp [List.count_cons, List.countP_cons, ih]

/-- C8: queued delivery through the worker.  Let task be the queued
snapshot that FireGlobalImpl pushed for one publication.  A subscriber
that has expired by the time the worker runs the task is not invoked
at all; a subscriber alive at dequeue time is invoked once per queued
subscription it held in the list at publish time — in particular
exactly once when it held exactly one. -/
theorem c8_queued_delivery_exactly_once (subs : List Subscription)
    (expiredAtPublish aliveAtDequeue : Nat → Bool) (S : Nat) (task : List Nat)
    (htask : (FireGlobalImpl subs expiredAtPublish).queuedTask = some task) :
    (aliveAtDequeue S = false → (RunQueuedTask task aliveAtDequeue).count S = 0) ∧
    (expiredAtPublish S = false → aliveAtDequeue S = true →
      (RunQueuedTask task aliveAtDequeue).count S =
        subs.countP (fun s =>
          decide (s.subscriber_id = S ∧ s.connection_type ≠ ConnectionType.kDirect))) ∧
    (expiredAtPublish S = false → aliveAtDequeue S = true →
      subs.countP (fun s =>
        decide (s.subscriber_id = S ∧ s.connection_type ≠ ConnectionType.kDirect)) = 1 →
      (RunQueuedTask task aliveAtDequeue).count S = 1) := by
  have htask' : task =
      ((subs.filter (fun s => !expiredAtPublish s.subscriber_id)).filter
        (fun s => ¬s.connection_type = ConnectionType.kDirect)).map
          (fun s => s.subscriber_id) := by
    unfold FireGlobalImpl CleanupExpiredSubscriptions at htask
    dsimp only at htask
    by_cases hq : (((subs.filter (fun s => !expiredAtPublish s.subscriber_id)).filter
        (fun s => ¬s.connection_type = ConnectionType.kDirect))).isEmpty
    · rw [if_pos hq] at htask
      exact absurd htask (by simp)
    · rw [if_neg hq] at htask
      exact (Option.some_inj.mp htask).symm
  have hcount_eq : expiredAtPublish S = false → aliveAtDequeue S = true →
      (RunQueuedTask task aliveAtDequeue).count S =
        subs.countP (fun s =>
          decide (s.subscriber_id = S ∧ s.connection_type ≠ ConnectionType.kDirect)) := by
    intro hexp halive
    rw [runQueuedTask_count, if_pos halive, htask', count_map_subscriber,
      List.countP_filter, List.countP_filter]
    apply List.countP_congr
    intro s _
    by_cases h1 : s.subscriber_id = S
    · by_cases h2 : s.connection_type = ConnectionType.kDirect
      · simp [h1, h2]
      · simp [h1, h2, hexp]
    · simp [h1]
  refine ⟨?_, hcount_eq, fun hexp halive h1 => by rw [hcount_eq hexp halive, h1]⟩
  intro hdead
  rw [runQueuedTask_count]
  simp [hdead]

theorem c8_queued_delivery_exactly_once_witness :
    (RunQueuedTask [5] (fun _ => true)).count 5 = 1 := by
  have h := c8_queued_delivery_exactly_once
    [⟨5, ConnectionType.kQueued⟩, ⟨6, ConnectionType.kDirect⟩]
    (fun _ => false) (fun _ => true) 5 [5] rfl
  exact h.2.2 rfl rfl (by decide)

/-! ## Theorems about the shipped example plugins (claim C9) -/

set_option maxRecDepth 100000 in
/-- C9 counterexample: resolving the default implementation of
ISimple in the example registry does yield the SimpleImplA instance,
but its GetSimpleString returns "Hello from SimpleImplA (and I just
logged a message!)" — not the string "Hello from SimpleImplA" the
claim states. -/
theorem c9_counterexample_simple_a_string :
    (CreateDefaultInstance exampleReg (fun _ => true) ⟨ISimple_kIid, 1, 0⟩).toOption.map
      (fun res => res.out_ptr.map (fun h => exampleGetSimpleString h.obj)) =
      some (some SimpleImplA_GetSimpleString) ∧
    SimpleImplA_GetSimpleString ≠ "Hello from SimpleImplA" :=
  ⟨rfl, by decide⟩

set_option maxRecDepth 100000 in
/-- C9 (amended): in the example registry built by the shipped
plugin's registrations, the default implementation of ISimple is
Simple.A (SimpleImplA, registered with is_default true) and resolving
it yields an instance whose GetSimpleString returns "Hello from
SimpleImplA (and I just logged a message!)"; creating an instance by
alias "Simple.B" yields a SimpleImplB instance whose GetSimpleString
returns "Hello from SimpleImplB". -/
theorem c9_example_strings :
    exampleReg.default_map ISimple_kIid = some SimpleImplA_kClsid ∧
    (CreateDefaultInstance exampleReg (fun _ => true) ⟨ISimple_kIid, 1, 0⟩).toOption.map
      (fun res => res.out_ptr.map (fun h => exampleGetSimpleString h.obj)) =
      some (some SimpleImplA_GetSimpleString) ∧
    GetClsidFromAlias exampleReg "Simple.B" = SimpleImplB_kClsid ∧
    (CreateInstanceAlias exampleReg ⟨ISimple_kIid, 1, 0⟩ "Simple.B").toOption.map
      (fun res => res.out_ptr.map (fun h => exampleGetSimpleString h.obj)) =
      some (some SimpleImplB_GetSimpleString) :=
  ⟨rfl, rfl, rfl, rfl⟩

end Z3y
